import Mathlib

set_option maxRecDepth 16384

/-!
Verification of the RAG client in `src/gemini_rag.py` (class `GeminiRAG`).

The embedding is shallow.  Remote effects of the `google.genai` client are
modelled by an explicit environment `Env`; a Python call that may raise is
modelled as returning `Except String a`, where `.error msg` means the call
raised an exception whose string form is `msg`.  The mutable object state
(`self.file_search_store`, `self.uploaded_files`) is threaded explicitly as
`RAGState`.  The unbounded `while not operation.done` polling loop inside
`upload_files` is embedded as a fuel-indexed function `pollLoop`; a result of
`none` means the loop has not exited within the given number of polls, and
`upload_files env fuel st ps = none` means the Python call is still inside
that loop after `fuel` polls of some operation.  Attribute values on remote
response objects whose use can raise (iterating a non-list, slicing a
non-string) are modelled by the `Attr.bad` constructor; `Attr.absent` models
a missing attribute (`hasattr` returns false).
-/

namespace GeminiRAG

/-- Snapshot of a remote long-running operation as seen by one poll:
`done` is the `operation.done` flag, `error` models the `operation.error`
attribute (`some s` = present and truthy with message `s`). -/
structure Operation where
  done : Bool
  error : Option String
deriving DecidableEq

/-- State of a Python attribute of a remote response object: missing
(`hasattr` false), present but raising when used (`bad`), or a value. -/
inductive Attr (α : Type) where
  | absent : Attr α
  | bad : Attr α
  | val : α → Attr α
deriving DecidableEq

/-- One grounding chunk: `text` and `source` model `getattr(chunk, "text",
"")` and `getattr(chunk, "source", "Unknown")`, with `none` meaning the
attribute is absent so that the `getattr` default is used. -/
structure Chunk where
  text : Option String
  source : Option String
deriving DecidableEq

/-- The `search_entry_point` object; its `rendered_content` attribute may be
absent, unusable (slicing raises) or a string. -/
structure EntryPoint where
  rendered_content : Attr String
deriving DecidableEq

/-- The `grounding_metadata` object of one candidate. -/
structure GroundingMetadata where
  grounding_chunks : Attr (List Chunk)
  search_entry_point : Option EntryPoint
deriving DecidableEq

/-- One element of `response.candidates`. -/
structure Candidate where
  grounding_metadata : Option GroundingMetadata
deriving DecidableEq

/-- A remote response: `candidates` models `response.candidates`, `text`
models the optional `response.text` attribute, and `asString` models
`str(response)`, used when `text` is absent. -/
structure Response where
  candidates : Attr (List Candidate)
  text : Option String
  asString : String
deriving DecidableEq

/-- A normalized citation dictionary `{"text": ..., "source": ...}`. -/
structure Citation where
  text : String
  source : String
deriving DecidableEq

/-- The dictionary returned by `query`: `{"answer": ..., "citations": ...}`. -/
structure QueryResult where
  answer : String
  citations : List Citation
deriving DecidableEq

/-- The mutable fields of a `GeminiRAG` object: `self.file_search_store`
(modelled by the store name, `none` when not initialized) and
`self.uploaded_files`. -/
structure RAGState where
  file_search_store : Option String
  uploaded_files : List String
deriving DecidableEq

/-- The state established by `__init__` (lines 24 and 25 of the source):
no store, no uploaded files. -/
def initState : RAGState :=
  { file_search_store := none, uploaded_files := [] }

/-- The remote environment: one entry per `google.genai` client call used by
the class.  `upload` returns the whole future of the operation as a trace
(index `i` is the operation object seen by the `i`-th poll); `generate`
receives the question, the temperature and the store name. -/
structure Env where
  createStore : Except String String
  upload : String → Except String (Nat → Operation)
  generate : String → Float → String → Except String Response
  deleteStore : String → Except String Unit

/-- Characters of `os.path.basename p`: the characters after the last
slash. -/
def basenameChars (cs : List Char) : List Char :=
  (cs.reverse.takeWhile fun c => c ≠ '/').reverse

/-- Model of `os.path.basename` (POSIX): the part of the path after the
last `/`. -/
def basename (p : String) : String :=
  String.mk (basenameChars p.data)

/-- The polling loop of `upload_files` (source lines 66 to 68):
`while not operation.done: time.sleep(2); operation = get(operation)`.
`pollLoop trace fuel` returns the first completed operation among the first
`fuel` polls of the trace, and `none` when the loop is still running after
`fuel` polls.  The source has no bound: the Python loop runs until the
operation reports `done`. -/
def pollLoop : (Nat → Operation) → Nat → Option Operation
  | _, 0 => none
  | trace, fuel + 1 =>
    if (trace 0).done then some (trace 0) else pollLoop (fun i => trace (i + 1)) fuel

/-- The per-file loop of `upload_files` (source lines 53 to 79).  Each file
is processed inside `try ... except`: an exception from the upload call is
caught and the loop continues; a completed operation with a truthy `error`
is reported and skipped (line 72 `continue`); otherwise the filename is
appended to `self.uploaded_files` and to the local `uploaded_names`. -/
def uploadLoop (env : Env) (fuel : Nat) :
    RAGState → List String → List String → Option (RAGState × List String)
  | st, acc, [] => some (st, acc)
  | st, acc, path :: rest =>
    match env.upload path with
    | .error _ => uploadLoop env fuel st acc rest
    | .ok trace =>
      match pollLoop trace fuel with
      | none => none
      | some op =>
        if op.error.isSome then uploadLoop env fuel st acc rest
        else
          uploadLoop env fuel
            { st with uploaded_files := st.uploaded_files ++ [basename path] }
            (acc ++ [basename path]) rest

/-- Embedding of `GeminiRAG.upload_files` (source lines 27 to 82).  The
store creation call is wrapped in `try ... except` that prints the error and
returns the empty list (lines 40 to 47); on success `self.file_search_store`
is set and the files are processed one by one.  The result is `none` when
some per-file polling loop never exits within `fuel` polls; otherwise it is
the final object state paired with the value returned (the `Except` layer is
the error channel of the Python method, and this method catches every
exception, so every returned value is `.ok`). -/
def upload_files (env : Env) (fuel : Nat) (st : RAGState) (file_paths : List String) :
    Option (RAGState × Except String (List String)) :=
  match env.createStore with
  | .error _ => some (st, .ok [])
  | .ok storeName =>
    match uploadLoop env fuel { st with file_search_store := some storeName } [] file_paths with
    | none => none
    | some (st2, names) => some (st2, .ok names)

/-- The citation dictionary built for one chunk (source lines 152 to 155). -/
def citationOfChunk (c : Chunk) : Citation :=
  { text := c.text.getD "", source := c.source.getD "Unknown" }

/-- The chunk loop of `_extract_citations` (source lines 151 to 157): build
a citation per chunk and keep it only when its text is truthy, that is,
non-empty. -/
def chunkCitations : List Chunk → List Citation
  | [] => []
  | c :: cs =>
    if (citationOfChunk c).text = "" then chunkCitations cs
    else citationOfChunk c :: chunkCitations cs

/-- The `search_entry_point` part of the walk (source lines 160 to 166).
The accumulator is the citation list built so far; `.error acc` models an
exception raised with `acc` already accumulated (the Python list variable
keeps its contents when the `try` block is aborted). -/
def entryWalk (acc : List Citation) (ep : Option EntryPoint) :
    Except (List Citation) (List Citation) :=
  match ep with
  | none => .ok acc
  | some e =>
    match e.rendered_content with
    | .absent => .ok acc
    | .bad => .error acc
    | .val s => .ok (acc ++ [{ text := s.take 200 ++ "...", source := "File Search" }])

/-- The per-candidate body of the walk (source lines 145 to 166): first the
grounding chunks, then the search entry point. -/
def candidateWalk (acc : List Citation) (c : Candidate) :
    Except (List Citation) (List Citation) :=
  match c.grounding_metadata with
  | none => .ok acc
  | some md =>
    match md.grounding_chunks with
    | .bad => .error acc
    | .absent => entryWalk acc md.search_entry_point
    | .val cs => entryWalk (acc ++ chunkCitations cs) md.search_entry_point

/-- The candidate loop of `_extract_citations`. -/
def walkCandidates : List Citation → List Candidate → Except (List Citation) (List Citation)
  | acc, [] => .ok acc
  | acc, c :: cs =>
    match candidateWalk acc c with
    | .error a => .error a
    | .ok a => walkCandidates a cs

/-- The whole `try` block of `_extract_citations` (source lines 142 to 166):
`.error acc` means an exception escaped the walk with `acc` accumulated.
`response.candidates` is iterated only when present and truthy (line 144). -/
def extractWalk (r : Response) : Except (List Citation) (List Citation) :=
  match r.candidates with
  | .absent => .ok []
  | .bad => .error []
  | .val [] => .ok []
  | .val cs => walkCandidates [] cs

/-- Embedding of `GeminiRAG._extract_citations` (source lines 130 to 170):
the `except` clause prints a warning and the function returns the citations
accumulated so far in either case. -/
def extract_citations (r : Response) : List Citation :=
  match extractWalk r with
  | .ok l => l
  | .error l => l

/-- The answer text of a response (source line 115):
`response.text if hasattr(response, "text") else str(response)`. -/
def answerText (r : Response) : String :=
  match r.text with
  | some t => t
  | none => r.asString

/-- Embedding of `GeminiRAG.query` (source lines 84 to 128).  The first
component of the result is the object state after the call (the method never
assigns to `self`, so it is the input state on every path); the second is
the returned dictionary, or `.error msg` for the `ValueError` raised when
the store is not initialized (lines 95 and 96).  Any exception from the
remote call is caught and turned into an error-text answer with no citations
(lines 124 to 128). -/
def query (env : Env) (st : RAGState) (question : String) (temperature : Float) :
    RAGState × Except String QueryResult :=
  match st.file_search_store with
  | none => (st, .error "File search store not initialized. Call upload_files() first.")
  | some storeName =>
    match env.generate question temperature storeName with
    | .error e => (st, .ok { answer := "Error generating response: " ++ e, citations := [] })
    | .ok r => (st, .ok { answer := answerText r, citations := extract_citations r })

/-- Embedding of `GeminiRAG.cleanup` (source lines 172 to 188).  With no
store the method prints a warning and returns (lines 174 to 176).  The
assignments clearing `self.file_search_store` and `self.uploaded_files`
stand inside the `try` block after the delete call, so they run only when
the delete call did not raise; the `except` clause only prints. -/
def cleanup (env : Env) (st : RAGState) : RAGState × Except String Unit :=
  match st.file_search_store with
  | none => (st, .ok ())
  | some storeName =>
    match env.deleteStore storeName with
    | .error _ => (st, .ok ())
    | .ok _ => ({ file_search_store := none, uploaded_files := [] }, .ok ())

/-- Truthiness of `question` is not checked by `query`; this predicate
states that a question is empty after stripping whitespace, as the
interactive loop does with `.strip()`. -/
def isWhitespaceOnly (q : String) : Bool :=
  q.data.all Char.isWhitespace

/-- The error answer built at source line 126 for a remote failure. -/
def errAnswer (e : String) : String :=
  "Error generating response: " ++ e

/-- An operation that is still running. -/
def opPending : Operation :=
  { done := false, error := none }

/-- An operation that has completed without error. -/
def opDone : Operation :=
  { done := true, error := none }

/-- A benign environment: store creation succeeds with name `store1`, every
upload completes immediately, the answering call fails, deletion succeeds. -/
def envBase : Env :=
  { createStore := .ok "store1",
    upload := fun _ => .ok fun _ => opDone,
    generate := fun _ _ _ => .error "unavailable",
    deleteStore := fun _ => .ok () }

/-- Environment whose store creation call raises. -/
def envBadCreate : Env :=
  { envBase with createStore := .error "quota exceeded" }

/-- Environment whose store deletion call raises. -/
def envBadDelete : Env :=
  { envBase with deleteStore := fun _ => .error "permission denied" }

/-- Environment in which uploading `b.txt` raises and every other upload
completes at once. -/
def env1 : Env :=
  { envBase with upload := fun p => if p = "b.txt" then .error "boom" else .ok fun _ => opDone }

/-- Environment whose upload operations never report completion. -/
def envNeverDone : Env :=
  { envBase with upload := fun _ => .ok fun _ => opPending }

/-- Operation trace that first reports completion at poll index `k`. -/
def doneAt (k : Nat) : Nat → Operation :=
  fun i => if k ≤ i then opDone else opPending

/-- Environment whose upload operations complete at poll index `k`. -/
def envDoneAt (k : Nat) : Env :=
  { envBase with upload := fun _ => .ok (doneAt k) }

/-- An open session state with one uploaded file on record. -/
def stOpen : RAGState :=
  { file_search_store := some "store1", uploaded_files := ["kept.txt"] }

/-- A response with no candidates and a plain text answer. -/
def respPlain : Response :=
  { candidates := .absent, text := some "I found nothing.", asString := "resp" }

/-- Environment whose answering call returns `respPlain`. -/
def envPlain : Env :=
  { envBase with generate := fun _ _ _ => .ok respPlain }

/-- Grounding metadata holding one good chunk and an entry point whose
`rendered_content` raises when sliced. -/
def badWalkMetadata : GroundingMetadata :=
  { grounding_chunks := .val [{ text := some "relevant passage", source := some "doc1" }],
    search_entry_point := some { rendered_content := .bad } }

/-- A response holding one good grounding chunk followed by a search entry
point whose `rendered_content` raises when sliced. -/
def badEntryResponse : Response :=
  { candidates := .val [{ grounding_metadata := some badWalkMetadata }],
    text := some "the answer", asString := "resp" }

/-- Environment whose answering call returns `badEntryResponse`. -/
def envBadWalk : Env :=
  { envBase with generate := fun _ _ _ => .ok badEntryResponse }

/-- Grounding metadata holding no chunks and a rendered entry point blob. -/
def entryMetadata (s : String) : GroundingMetadata :=
  { grounding_chunks := .absent,
    search_entry_point := some { rendered_content := .val s } }

/-- A response whose only citation-bearing shape is a rendered search entry
point blob `s`, with no grounding chunks. -/
def entryResponse (s : String) : Response :=
  { candidates := .val [{ grounding_metadata := some (entryMetadata s) }],
    text := some "blob answer", asString := "resp" }

/-- Outcome classifier for one file under `fuel` polls: `true` exactly when
the upload call does not raise, the operation completes within `fuel` polls
and reports no error. -/
def fileOk (env : Env) (fuel : Nat) (p : String) : Bool :=
  match env.upload p with
  | .error _ => false
  | .ok trace =>
    match pollLoop trace fuel with
    | none => false
    | some op => !op.error.isSome

/-- Convergence of the polling loop for one file: the upload call raises (so
no polling happens) or the operation completes within `fuel` polls. -/
def fileConverges (env : Env) (fuel : Nat) (p : String) : Bool :=
  match env.upload p with
  | .error _ => true
  | .ok trace => (pollLoop trace fuel).isSome

theorem pollLoop_pending (fuel : Nat) : pollLoop (fun _ => opPending) fuel = none := by
  induction fuel with
  | zero => rfl
  | succ n ih => simpa [pollLoop, opPending] using ih

theorem pollLoop_doneAt (k : Nat) : pollLoop (doneAt k) (k + 1) = some opDone := by
  induction k with
  | zero => rfl
  | succ n ih =>
    have h0 : (doneAt (n + 1) 0).done = false := by simp [doneAt, opPending]
    have hshift : (fun i => doneAt (n + 1) (i + 1)) = doneAt n := by
      funext i
      simp [doneAt, Nat.succ_le_succ_iff]
    calc pollLoop (doneAt (n + 1)) (n + 1 + 1)
        = pollLoop (fun i => doneAt (n + 1) (i + 1)) (n + 1) := by
          simp [pollLoop, h0]
      _ = pollLoop (doneAt n) (n + 1) := by rw [hshift]
      _ = some opDone := ih

theorem uploadLoop_neverDone (fuel : Nat) (st : RAGState) (acc : List String) :
    uploadLoop envNeverDone fuel st acc ["a.txt"] = none := by
  simp [uploadLoop, envNeverDone, envBase, pollLoop_pending]

/-- Characterization of the per-file loop when every polling loop exits: the
state gains exactly the names of the files that uploaded and indexed without
error, in input order, and the same names are accumulated for the return
value. -/
theorem uploadLoop_spec (env : Env) (fuel : Nat) (paths : List String) :
    ∀ (st : RAGState) (acc : List String),
      (∀ p ∈ paths, fileConverges env fuel p = true) →
      uploadLoop env fuel st acc paths =
        some ({ st with uploaded_files :=
                  st.uploaded_files ++ (paths.filter (fileOk env fuel)).map basename },
              acc ++ (paths.filter (fileOk env fuel)).map basename) := by
  induction paths with
  | nil =>
    intro st acc _
    simp [uploadLoop]
  | cons p ps ih =>
    intro st acc h
    have hp : fileConverges env fuel p = true := h p (List.mem_cons_self p ps)
    have hps : ∀ q ∈ ps, fileConverges env fuel q = true :=
      fun q hq => h q (List.mem_cons_of_mem p hq)
    cases hup : env.upload p with
    | error e =>
      have hok : fileOk env fuel p = false := by simp [fileOk, hup]
      simp [uploadLoop, hup, hok, ih st acc hps]
    | ok trace =>
      cases hpoll : pollLoop trace fuel with
      | none =>
        exfalso
        have hc : fileConverges env fuel p = false := by simp [fileConverges, hup, hpoll]
        rw [hc] at hp
        exact Bool.noConfusion hp
      | some op =>
        cases hop : op.error.isSome with
        | true =>
          have hok : fileOk env fuel p = false := by simp [fileOk, hup, hpoll, hop]
          simp [uploadLoop, hup, hpoll, hop, hok, ih st acc hps]
        | false =>
          have hok : fileOk env fuel p = true := by simp [fileOk, hup, hpoll, hop]
          simp [uploadLoop, hup, hpoll, hop, hok,
            ih { st with uploaded_files := st.uploaded_files ++ [basename p] }
              (acc ++ [basename p]) hps,
            List.filter_cons, List.append_assoc]


/-- Claim C1, counterexample.  With two input documents of which the second
fails to upload, `upload_files` returns only the success list; the failed
document `b.txt` appears nowhere in the returned value, so the returned data
does not partition the input into successes and `{documentId, error}`
failures as the claim states: the failure list simply does not exist in the
return type of the code. -/
theorem upload_failure_not_returned_cex :
    upload_files env1 1 initState ["a.txt", "b.txt"] =
      some ({ file_search_store := some "store1", uploaded_files := ["a.txt"] },
        .ok ["a.txt"]) ∧
    "b.txt" ∉ ["a.txt"] :=
  ⟨rfl, by decide⟩

/-- Claim C1, amended.  Whenever store creation succeeds and every per-file
polling loop exits within `fuel` polls, `upload_files` processes each
document independently (a failure never aborts the batch: later files are
still processed) and returns exactly the basenames of the files that
uploaded and indexed without error, in input order.  Failed documents are
only printed; they are not part of the returned value. -/
theorem upload_files_partial (env : Env) (fuel : Nat) (st : RAGState)
    (paths : List String) (storeName : String)
    (hc : env.createStore = .ok storeName)
    (hconv : ∀ p ∈ paths, fileConverges env fuel p = true) :
    upload_files env fuel st paths =
      some ({ file_search_store := some storeName,
              uploaded_files := st.uploaded_files ++ (paths.filter (fileOk env fuel)).map basename },
            .ok ((paths.filter (fileOk env fuel)).map basename)) := by
  have h := uploadLoop_spec env fuel paths { st with file_search_store := some storeName } [] hconv
  simp [upload_files, hc, h]

/-- Witness for C1: store creation succeeds, `b.txt` raises on upload while
`a.txt` and `c.txt` succeed, and the call returns exactly
`["a.txt", "c.txt"]`, processing `c.txt` after the failure of `b.txt`. -/
theorem upload_files_partial_witness :
    upload_files env1 1 initState ["a.txt", "b.txt", "c.txt"] =
      some ({ file_search_store := some "store1", uploaded_files := ["a.txt", "c.txt"] },
        .ok ["a.txt", "c.txt"]) :=
  upload_files_partial env1 1 initState ["a.txt", "b.txt", "c.txt"] "store1" rfl (by decide)

/-- Claim C2.  If the session is open and the remote answering call raises
with message `e`, `query` does not propagate the exception: it returns the
dictionary whose answer is the error text built at source line 126 and whose
citation list is empty; that answer is non-empty and begins with the error
indicator `Error`. -/
theorem query_remote_failure (env : Env) (st : RAGState) (storeName question : String)
    (temperature : Float) (e : String)
    (hstore : st.file_search_store = some storeName)
    (hgen : env.generate question temperature storeName = .error e) :
    query env st question temperature =
      (st, .ok { answer := errAnswer e, citations := [] }) ∧
    errAnswer e ≠ "" ∧
    (∃ rest, errAnswer e = "Error" ++ rest) := by
  refine ⟨by simp [query, hstore, hgen, errAnswer], ?_, ?_⟩
  · intro hempty
    have hlen := congrArg String.length hempty
    rw [errAnswer, String.length_append] at hlen
    have h26 : ("Error generating response: ").length = 27 := by decide
    have h0 : ("" : String).length = 0 := by decide
    omega
  · refine ⟨" generating response: " ++ e, ?_⟩
    have hlit : "Error generating response: " = "Error" ++ " generating response: " := rfl
    rw [errAnswer, hlit, String.append_assoc]

/-- Witness for C2 at a concrete failing environment. -/
theorem query_remote_failure_witness :
    query envBase stOpen "What is covered?" 0.7 =
      (stOpen, .ok { answer := errAnswer "unavailable", citations := [] }) ∧
    errAnswer "unavailable" ≠ "" ∧
    (∃ rest, errAnswer "unavailable" = "Error" ++ rest) :=
  query_remote_failure envBase stOpen "store1" "What is covered?" 0.7 "unavailable" rfl rfl

/-- Proposition: on an operation that never reports completion,
`upload_files` does not return, whatever number of polls of its loop one
observes. -/
def ingestHangs : Prop :=
  ∀ fuel, upload_files envNeverDone fuel initState ["a.txt"] = none

/-- Claim C3, counterexample.  The polling loop at source lines 66 to 68 has
no maximum wait: for an operation that never completes, `upload_files` is
still inside the loop after any number of polls, no record is ever marked
failed with a timeout cause, and the call does not return. -/
theorem ingest_hangs_cex : ingestHangs := by
  intro fuel
  show (match uploadLoop envNeverDone fuel
          { initState with file_search_store := some "store1" } [] ["a.txt"] with
        | none => none
        | some (st2, names) => some (st2, Except.ok names)) = none
  rw [uploadLoop_neverDone]

/-- Claim C3, amended.  Polling is unbounded: termination of `upload_files`
depends only on the remote operation itself reporting completion.  For a
never-completing operation the call does not return after any number of
polls, while an operation that first completes at poll index `k` is waited
for in full, however large `k` is, and the file is then recorded as
uploaded; no timeout exists. -/
theorem upload_polling_unbounded :
    (∀ fuel, upload_files envNeverDone fuel initState ["a.txt"] = none) ∧
    (∀ k, upload_files (envDoneAt k) (k + 1) initState ["a.txt"] =
      some ({ file_search_store := some "store1", uploaded_files := ["a.txt"] },
        .ok ["a.txt"])) := by
  constructor
  · intro fuel
    show (match uploadLoop envNeverDone fuel
            { initState with file_search_store := some "store1" } [] ["a.txt"] with
          | none => none
          | some (st2, names) => some (st2, Except.ok names)) = none
    rw [uploadLoop_neverDone]
  · intro k
    have hb : basename "a.txt" = "a.txt" := rfl
    show (match uploadLoop (envDoneAt k) (k + 1)
            { initState with file_search_store := some "store1" } [] ["a.txt"] with
          | none => none
          | some (st2, names) => some (st2, Except.ok names)) =
        some ({ file_search_store := some "store1", uploaded_files := ["a.txt"] },
          Except.ok ["a.txt"])
    simp [uploadLoop, envDoneAt, envBase, pollLoop_doneAt, opDone, hb, initState]

/-- Claim C4, counterexample.  When the store creation call raises,
`upload_files` catches the exception, prints it and returns the empty list
as a normal value: no `StoreCreationFailed` (or any other) error reaches the
caller, and the result is indistinguishable in shape from a successful run
with zero uploads.  The session is indeed left unopened. -/
theorem store_creation_swallowed_cex :
    upload_files envBadCreate 1 initState ["a.txt"] = some (initState, .ok []) ∧
    initState.file_search_store = none :=
  ⟨rfl, rfl⟩

/-- Claim C4, amended.  If the remote store creation call raises,
`upload_files` leaves the session unopened (the state, in particular
`file_search_store`, is unchanged) and returns the empty list without
raising; the failure is only printed, so the caller can detect it only from
the empty result or from a later failing `query`. -/
theorem upload_files_create_failure (env : Env) (fuel : Nat) (st : RAGState)
    (paths : List String) (e : String) (hc : env.createStore = .error e) :
    upload_files env fuel st paths = some (st, .ok []) := by
  simp [upload_files, hc]

/-- Witness for the amended C4 at a concrete environment. -/
theorem upload_files_create_failure_witness :
    upload_files envBadCreate 2 initState ["a.txt", "b.txt"] = some (initState, .ok []) :=
  upload_files_create_failure envBadCreate 2 initState ["a.txt", "b.txt"] "quota exceeded" rfl

/-- Claim C5.  Whenever the session is not open (`file_search_store` is
`none`), every `query` attempt raises the `ValueError` of source line 96,
whatever the question, the temperature and the remote environment: no
silent no-op and no normal answer is possible. -/
theorem query_session_not_open (env : Env) (st : RAGState) (question : String)
    (temperature : Float) (h : st.file_search_store = none) :
    query env st question temperature =
      (st, .error "File search store not initialized. Call upload_files() first.") := by
  simp [query, h]

/-- Witness for C5 on the freshly initialized state. -/
theorem query_session_not_open_witness :
    query envBase initState "anything" 0.7 =
      (initState, .error "File search store not initialized. Call upload_files() first.") :=
  query_session_not_open envBase initState "anything" 0.7 rfl

/-- Claim C6, counterexample.  When the remote deletion raises, `cleanup`
catches and prints the error and returns with the local state unchanged: the
store reference is still set and the uploaded-file bookkeeping is still
there, contradicting the claim that local state is marked closed
regardless. -/
theorem cleanup_failure_cex :
    cleanup envBadDelete stOpen = (stOpen, .ok ()) ∧
    stOpen.file_search_store = some "store1" ∧
    stOpen.uploaded_files = ["kept.txt"] :=
  ⟨rfl, rfl, rfl⟩

/-- Claim C6, amended.  If the remote deletion raises, the failure is
reported (printed), not retried and not re-raised, but the local state is
left unchanged: `file_search_store` and `uploaded_files` keep their values.
State is cleared only when the delete call succeeds. -/
theorem cleanup_failure_keeps_state (env : Env) (st : RAGState) (storeName e : String)
    (hstore : st.file_search_store = some storeName)
    (hdel : env.deleteStore storeName = .error e) :
    cleanup env st = (st, .ok ()) := by
  simp [cleanup, hstore, hdel]

/-- Witness for the amended C6 at a concrete environment. -/
theorem cleanup_failure_keeps_state_witness :
    cleanup envBadDelete stOpen = (stOpen, .ok ()) :=
  cleanup_failure_keeps_state envBadDelete stOpen "store1" "permission denied" rfl rfl

/-- Claim C7, counterexample.  On a response whose walk raises after one
good grounding chunk has been extracted, the error is caught, but the
returned citation list is not empty: it carries the citation extracted from
the failed walk, contradicting the claim that the result carries no
citations from a failed walk. -/
theorem citation_walk_partial_cex :
    extractWalk badEntryResponse = .error [{ text := "relevant passage", source := "doc1" }] ∧
    extract_citations badEntryResponse = [{ text := "relevant passage", source := "doc1" }] ∧
    extract_citations badEntryResponse ≠ ([] : List Citation) :=
  ⟨rfl, rfl, by decide⟩

/-- Claim C7, amended.  Any error raised while walking the grounding
metadata is caught inside `_extract_citations` and never surfaced as a query
failure: `query` still returns a normal result whose citations are exactly
the ones accumulated before the error, which may be non-empty. -/
theorem citation_walk_error_contained (env : Env) (st : RAGState) (storeName question : String)
    (temperature : Float) (r : Response) (acc : List Citation)
    (hstore : st.file_search_store = some storeName)
    (hgen : env.generate question temperature storeName = .ok r)
    (hwalk : extractWalk r = .error acc) :
    query env st question temperature =
      (st, .ok { answer := answerText r, citations := acc }) := by
  simp [query, hstore, hgen, extract_citations, hwalk]

/-- Witness for the amended C7 at a concrete failing walk. -/
theorem citation_walk_error_contained_witness :
    query envBadWalk stOpen "q" 0.7 =
      (stOpen, .ok { answer := answerText badEntryResponse,
                     citations := [{ text := "relevant passage", source := "doc1" }] }) :=
  citation_walk_error_contained envBadWalk stOpen "store1" "q" 0.7 badEntryResponse
    [{ text := "relevant passage", source := "doc1" }] rfl rfl rfl

/-- Claim C8.  On a response whose grounding metadata has no chunks and a
rendered search entry point blob longer than 200 characters, citation
extraction produces exactly one citation, synthesized from the blob with the
fixed source label `File Search`, whose text is the 200-character prefix of
the blob followed by the `...` truncation marker, 203 characters in all. -/
theorem entry_point_citation_truncated (s : String) (h : 200 < s.length) :
    extract_citations (entryResponse s) =
      [{ text := s.take 200 ++ "...", source := "File Search" }] ∧
    (s.take 200 ++ "...").length = 203 := by
  refine ⟨?_, ?_⟩
  · simp [extract_citations, extractWalk, entryResponse, entryMetadata, walkCandidates,
      candidateWalk, entryWalk]
  have htake : (s.take 200).length = 200 := by
    simp only [String.length]
    rw [String.data_take, List.length_take]
    exact Nat.min_eq_left (Nat.le_of_lt h)
  have h3 : ("..." : String).length = 3 := by decide
  rw [String.length_append, htake, h3]

/-- A blob of 201 identical characters, longer than the 200-character cap. -/
def s201 : String :=
  String.mk (List.replicate 201 'a')

set_option maxHeartbeats 1000000 in
/-- Witness for C8 at a concrete 201-character blob. -/
theorem entry_point_citation_truncated_witness :
    200 < s201.length ∧
    (extract_citations (entryResponse s201) =
      [{ text := s201.take 200 ++ "...", source := "File Search" }] ∧
    (s201.take 200 ++ "...").length = 203) :=
  ⟨by decide, entry_point_citation_truncated s201 (by decide)⟩

/-- Claim C9, counterexample.  On a whitespace-only question with an open
session, `query` does not fail with any `EmptyQuestion` error: it invokes
the remote answering capability and returns its answer as on any other
question, so the engine does assume the interactive loop has filtered empty
questions. -/
theorem empty_question_not_rejected_cex :
    isWhitespaceOnly "   " = true ∧
    query envPlain stOpen "   " 0.7 =
      (stOpen, .ok { answer := "I found nothing.", citations := [] }) :=
  ⟨rfl, rfl⟩

/-- Claim C9, amended.  `query` performs no emptiness check on the question:
a question that is empty after trimming whitespace is passed to the remote
answering call like any other and produces the normal result for whatever
the remote call returns.  Only the interactive loop filters empty input. -/
theorem query_no_empty_check (env : Env) (st : RAGState) (storeName question : String)
    (temperature : Float) (r : Response)
    (_hblank : isWhitespaceOnly question = true)
    (hstore : st.file_search_store = some storeName)
    (hgen : env.generate question temperature storeName = .ok r) :
    query env st question temperature =
      (st, .ok { answer := answerText r, citations := extract_citations r }) := by
  simp [query, hstore, hgen]

/-- Witness for the amended C9 at the empty question. -/
theorem query_no_empty_check_witness :
    query envPlain stOpen "" 0.7 =
      (stOpen, .ok { answer := answerText respPlain, citations := extract_citations respPlain }) :=
  query_no_empty_check envPlain stOpen "store1" "" 0.7 respPlain rfl rfl rfl

/-- Claim C10.  `query` never mutates the session state: on the not-open
path, the remote-failure path and the success path alike, the state after
the call (first component of the result) is exactly the input state, for
every environment, question and temperature; in the embedding only
`upload_files` and `cleanup` return a changed state. -/
theorem query_preserves_state (env : Env) (st : RAGState) (question : String)
    (temperature : Float) :
    (query env st question temperature).1 = st := by
  cases h : st.file_search_store with
  | none => simp [query, h]
  | some storeName =>
    cases hg : env.generate question temperature storeName with
    | error e => simp [query, h, hg]
    | ok r => simp [query, h, hg]

end GeminiRAG
